import Mathlib

/-!
Verification of the financial rollup and reporting engine of the NPS
accounting application (`src/app.py`).

The embedding models the ledger tables as lists of typed rows with currency
amounts as rationals, and translates the dashboard computations
(`page_dashboard`, `page_owners_dashboard`), the storage-adapter placeholder
translation (`NeonCompatCursor.execute`), the read utility (`df_from_query`)
and the write paths (`page_cash`, `page_invoices`, `page_debts_fixed`)
directly from the source.
-/

namespace NpsAcc

/-- A row of the `invoices` table as read by the dashboards:
`SELECT project_code, amount, status FROM invoices`. -/
structure InvoiceRow where
  projectCode : Option String
  amount : ℚ
  status : String
deriving Repr, DecidableEq

/-- A row of the `cash_book` table as read by the dashboards:
`SELECT project_code, debit, credit FROM cash_book`. -/
structure CashRow where
  projectCode : Option String
  debit : ℚ
  credit : ℚ
deriving Repr, DecidableEq

/-- A row of the `debts_fixed` table:
`SELECT project_code, type, amount FROM debts_fixed`. -/
structure DebtRow where
  projectCode : Option String
  dtype : String
  amount : ℚ
deriving Repr, DecidableEq

/-- A row of the `projects` table as read by the owners dashboard. -/
structure ProjectRow where
  projectCode : Option String
  name : Option String
  clientName : Option String
  contractValue : ℚ
  status : String
deriving Repr, DecidableEq

/-! ## Company dashboard (`page_dashboard`, app.py lines 510-589) -/

/-- `total_invoices = inv_df["amount"].sum()` (0.0 on an empty table). -/
def totalInvoices (invs : List InvoiceRow) : ℚ :=
  (invs.map (·.amount)).sum

/-- `total_debit = cash_df["debit"].sum()`. -/
def totalDebit (cash : List CashRow) : ℚ :=
  (cash.map (·.debit)).sum

/-- `total_credit = cash_df["credit"].sum()`. -/
def totalCredit (cash : List CashRow) : ℚ :=
  (cash.map (·.credit)).sum

/-- `net_cash = total_debit - total_credit`. -/
def netCash (cash : List CashRow) : ℚ :=
  totalDebit cash - totalCredit cash

/-- `total_debts = debts_df.loc[debts_df["type"] == "Debt", "amount"].sum()`. -/
def totalDebts (ds : List DebtRow) : ℚ :=
  ((ds.filter (fun r => r.dtype = "Debt")).map (·.amount)).sum

/-- `total_assets = debts_df.loc[debts_df["type"] == "Fixed Asset", "amount"].sum()`. -/
def totalAssets (ds : List DebtRow) : ℚ :=
  ((ds.filter (fun r => r.dtype = "Fixed Asset")).map (·.amount)).sum

/-- `debt_to_assets = total_debts / total_assets if total_assets > 0 else None`. -/
def debtToAssets (ds : List DebtRow) : Option ℚ :=
  if 0 < totalAssets ds then some (totalDebts ds / totalAssets ds) else none

/-- `cash_coverage = net_cash / total_debts if total_debts > 0 else None`. -/
def cashCoverage (cash : List CashRow) (ds : List DebtRow) : Option ℚ :=
  if 0 < totalDebts ds then some (netCash cash / totalDebts ds) else none

/-- `paid_amount = inv_df.loc[status.lower() == "paid", "amount"].sum()`. -/
def paidAmount (invs : List InvoiceRow) : ℚ :=
  ((invs.filter (fun r => r.status.toLower = "paid")).map (·.amount)).sum

/-- `collection_ratio`: stays `None` unless the invoice table is nonempty and
`total_invoices > 0`, in which case it is `(paid_amount / total_invoices) * 100`. -/
def collectionRatio (invs : List InvoiceRow) : Option ℚ :=
  if ¬invs.isEmpty ∧ 0 < totalInvoices invs then
    some (paidAmount invs / totalInvoices invs * 100)
  else none

/-! ## Owners dashboard rollup (`page_owners_dashboard`, app.py lines 639-812) -/

/-- The set of project codes collected across the four tables: each table's
`project_code` column with nulls dropped (`df[col].dropna()`), deduplicated
(Python `set`). Represented as a deduplicated list. -/
def collectCodes (projs : List ProjectRow) (invs : List InvoiceRow)
    (cash : List CashRow) (ds : List DebtRow) : List String :=
  ((projs.map (·.projectCode) ++ invs.map (·.projectCode)
    ++ cash.map (·.projectCode) ++ ds.map (·.projectCode)).filterMap id).dedup

/-- Per-project `revenue`: the invoice-amount groupby sum merged into the
summary, `fillna(0.0)` for codes with no invoice rows. -/
def revenueOf (invs : List InvoiceRow) (c : String) : ℚ :=
  ((invs.filter (fun r => r.projectCode = some c)).map (·.amount)).sum

/-- Per-project `cash_in` (sum of `debit`), `fillna(0.0)`. -/
def cashInOf (cash : List CashRow) (c : String) : ℚ :=
  ((cash.filter (fun r => r.projectCode = some c)).map (·.debit)).sum

/-- Per-project `cash_out` (sum of `credit`), `fillna(0.0)`. -/
def cashOutOf (cash : List CashRow) (c : String) : ℚ :=
  ((cash.filter (fun r => r.projectCode = some c)).map (·.credit)).sum

/-- Per-project `debts` (sum of `amount` over rows with `type == "Debt"`). -/
def debtsOf (ds : List DebtRow) (c : String) : ℚ :=
  ((ds.filter (fun r => r.dtype = "Debt" ∧ r.projectCode = some c)).map (·.amount)).sum

/-- Per-project `assets` (sum over rows with `type == "Fixed Asset"`). -/
def assetsOf (ds : List DebtRow) (c : String) : ℚ :=
  ((ds.filter (fun r => r.dtype = "Fixed Asset" ∧ r.projectCode = some c)).map (·.amount)).sum

/-- Per-project `net_cash = cash_in - cash_out`. -/
def netCashOf (cash : List CashRow) (c : String) : ℚ :=
  cashInOf cash c - cashOutOf cash c

/-- Per-project `est_profit = revenue - cash_out`. -/
def estProfitOf (invs : List InvoiceRow) (cash : List CashRow) (c : String) : ℚ :=
  revenueOf invs c - cashOutOf cash c

/-- `safe_margin`: `(est_profit / revenue) * 100.0` when `rev and rev != 0`,
else `None`.  For a non-NaN numeric, Python truthiness of `rev` coincides with
`rev != 0`. -/
def profitMarginOf (invs : List InvoiceRow) (cash : List CashRow) (c : String) : Option ℚ :=
  if revenueOf invs c ≠ 0 then
    some (estProfitOf invs cash c / revenueOf invs c * 100)
  else none

/-- Owners-dashboard `total_revenue = summary["revenue"].sum()`: the sum of the
per-project revenue column over the collected codes. -/
def odTotalRevenue (projs : List ProjectRow) (invs : List InvoiceRow)
    (cash : List CashRow) (ds : List DebtRow) : ℚ :=
  ((collectCodes projs invs cash ds).map (revenueOf invs)).sum

/-- Owners-dashboard `total_profit = summary["est_profit"].sum()`. -/
def odTotalProfit (projs : List ProjectRow) (invs : List InvoiceRow)
    (cash : List CashRow) (ds : List DebtRow) : ℚ :=
  ((collectCodes projs invs cash ds).map (estProfitOf invs cash)).sum

/-- Owners-dashboard `total_debts = summary["debts"].sum()`. -/
def odTotalDebts (projs : List ProjectRow) (invs : List InvoiceRow)
    (cash : List CashRow) (ds : List DebtRow) : ℚ :=
  ((collectCodes projs invs cash ds).map (debtsOf ds)).sum

/-- Owners-dashboard `total_assets = summary["assets"].sum()`. -/
def odTotalAssets (projs : List ProjectRow) (invs : List InvoiceRow)
    (cash : List CashRow) (ds : List DebtRow) : ℚ :=
  ((collectCodes projs invs cash ds).map (assetsOf ds)).sum

/-- Owners-dashboard `summary["net_cash"].sum()` (used for cash coverage). -/
def odTotalNetCash (projs : List ProjectRow) (invs : List InvoiceRow)
    (cash : List CashRow) (ds : List DebtRow) : ℚ :=
  ((collectCodes projs invs cash ds).map (netCashOf cash)).sum

/-! ## Alert engine (`page_dashboard`, app.py lines 572-589) -/

/-- The alert conditions of the company dashboard. `ok` is the success status
shown when no alert fired. -/
inductive Alert where
  | negativeCash
  | belowDebts
  | highDebtRatio
  | lowCollection
  | ok
deriving DecidableEq, Repr

/-- Only the negative-net-cash alert is rendered with `st.error` (critical);
the others are `st.warning`. -/
def isCritical : Alert → Bool
  | .negativeCash => true
  | _ => false

/-- The sequence of alerts fired by the dashboard:
`if net_cash < 0: error(...) elif net_cash < total_debts and total_debts > 0:
warning(...)`, then the debt-ratio check, then the collection-ratio check. -/
def alertsFired (net td : ℚ) (dta cr : Option ℚ) : List Alert :=
  (if net < 0 then [.negativeCash]
   else if net < td ∧ 0 < td then [.belowDebts]
   else [])
  ++ (match dta with
      | some r => if 1 < r then [.highDebtRatio] else []
      | none => [])
  ++ (match cr with
      | some r => if r < 70 then [.lowCollection] else []
      | none => [])

/-- `if not any_alert: st.success(...)`: with no alert fired, the dashboard
emits the single ok status. -/
def alertOutput (net td : ℚ) (dta cr : Option ℚ) : List Alert :=
  if alertsFired net td dta cr = [] then [.ok] else alertsFired net td dta cr

/-! ## Read utility (`df_from_query`, app.py lines 478-488) -/

/-- `df_from_query` runs `pd.read_sql_query` and catches any exception,
displaying the error with `st.error` and returning `pd.DataFrame()`.  Modelled
on the outcome of the underlying query: the first component is the table the
caller receives, the second the error message displayed to the UI (if any). -/
def dfFromQuery {α : Type} (res : Except String (List α)) : List α × Option String :=
  match res with
  | .ok t => (t, none)
  | .error e => ([], some e)

/-! ## Storage adapter (`NeonCompatCursor.execute`, app.py lines 38-44) -/

/-- One item of a dispatched query: a literal SQL character or a bound
positional parameter. -/
inductive SqlItem (α : Type) where
  | lit : Char → SqlItem α
  | param : α → SqlItem α
deriving DecidableEq, Repr

/-- sqlite3 positional binding: each `?` consumes the next parameter in
order; a count mismatch in either direction is a driver error (`none`). -/
def bindSqlite {α : Type} : List Char → List α → Option (List (SqlItem α))
  | [], ps => if ps.isEmpty then some [] else none
  | ch :: rest, ps =>
      if ch = '?' then
        match ps with
        | p :: tail => (bindSqlite rest tail).map (SqlItem.param p :: ·)
        | [] => none
      else (bindSqlite rest ps).map (SqlItem.lit ch :: ·)

/-- psycopg2 positional binding: each `%s` pair consumes the next parameter;
a stray `%` or a count mismatch is a driver error (`none`). -/
def bindPg {α : Type} : List Char → List α → Option (List (SqlItem α))
  | [], ps => if ps.isEmpty then some [] else none
  | ch :: rest, ps =>
      if ch = '%' then
        match rest, ps with
        | 's' :: rest2, p :: tail => (bindPg rest2 tail).map (SqlItem.param p :: ·)
        | _, _ => none
      else (bindPg rest ps).map (SqlItem.lit ch :: ·)

/-- `sql.replace("?", "%s")` at character level: every occurrence of the
universal placeholder becomes the psycopg2 placeholder. -/
def replaceQmark : List Char → List Char
  | [] => []
  | ch :: rest => if ch = '?' then '%' :: 's' :: replaceQmark rest else ch :: replaceQmark rest

/-- `NeonCompatCursor.execute(sql, params)`: with parameters supplied the
translated query is dispatched with them; without parameters the query text is
dispatched unchanged. Returns the pair handed to the wrapped cursor. -/
def neonExecute {α : Type} (sql : List Char) (params : Option (List α)) :
    List Char × Option (List α) :=
  match params with
  | some ps => (replaceQmark sql, some ps)
  | none => (sql, none)

/-! ## Write paths (`page_cash` 880-914, `page_invoices` 1036-1054,
`page_debts_fixed` 1097-1112) -/

/-- Python `str.strip()` on the character list: leading and trailing
whitespace removed. -/
def pyStripList (l : List Char) : List Char :=
  ((l.dropWhile Char.isWhitespace).reverse.dropWhile Char.isWhitespace).reverse

/-- Python `str.strip()`. -/
def pyStrip (s : String) : String :=
  ⟨pyStripList s.data⟩

/-- Python `s.strip() or None`, the normalization each optional text field
(project code, description, reference, remarks, client name) goes through
before the INSERT: stripped, with the empty result replaced by null. -/
def normalizeOpt (s : String) : Option String :=
  if pyStrip s = "" then none else some (pyStrip s)

/-- The cash-entry save: reject when both debit and credit are positive,
reject when both are zero, otherwise append the row with the normalized
project code (`page_cash`, lines 880-908). -/
def saveCashEntry (table : List CashRow) (projectCode : String) (debit credit : ℚ) :
    List CashRow :=
  if 0 < debit ∧ 0 < credit then table
  else if debit = 0 ∧ credit = 0 then table
  else table ++ [⟨normalizeOpt projectCode, debit, credit⟩]

/-- The invoice save: appends the row with the normalized project code
(`page_invoices`, lines 1036-1054; the dashboard projection of the row). -/
def saveInvoice (table : List InvoiceRow) (projectCode : String) (amount : ℚ)
    (status : String) : List InvoiceRow :=
  table ++ [⟨normalizeOpt projectCode, amount, status⟩]

/-- The debt/fixed-asset save: appends the row with the normalized project
code (`page_debts_fixed`, lines 1097-1112). -/
def saveDebtFixed (table : List DebtRow) (dtype : String) (projectCode : String)
    (amount : ℚ) : List DebtRow :=
  table ++ [⟨normalizeOpt projectCode, dtype, amount⟩]

/-- The stored cash-book invariant claimed by the spec: positive debit XOR
positive credit, for every row. -/
def cashXorInv (table : List CashRow) : Prop :=
  ∀ e ∈ table, (0 < e.debit ∧ ¬0 < e.credit) ∨ (¬0 < e.debit ∧ 0 < e.credit)

end NpsAcc

namespace NpsAcc

/-- Sum of a mapped list is nonnegative when the function is nonnegative on
its members. -/
theorem sum_map_nonneg {α : Type} (l : List α) (f : α → ℚ)
    (h : ∀ a ∈ l, 0 ≤ f a) : 0 ≤ (l.map f).sum := by
  apply List.sum_nonneg
  intro x hx
  obtain ⟨a, ha, rfl⟩ := List.mem_map.1 hx
  exact h a ha

theorem totalAssets_nonneg (ds : List DebtRow) (h : ∀ r ∈ ds, 0 ≤ r.amount) :
    0 ≤ totalAssets ds := by
  apply sum_map_nonneg
  intro a ha
  exact h a (List.mem_filter.1 ha).1

theorem totalDebts_nonneg (ds : List DebtRow) (h : ∀ r ∈ ds, 0 ≤ r.amount) :
    0 ≤ totalDebts ds := by
  apply sum_map_nonneg
  intro a ha
  exact h a (List.mem_filter.1 ha).1

theorem totalInvoices_nonneg (invs : List InvoiceRow)
    (h : ∀ r ∈ invs, 0 ≤ r.amount) : 0 ≤ totalInvoices invs :=
  sum_map_nonneg invs (·.amount) h

/-- C3: for every project code, `profit_margin_%` is null exactly when that
project's revenue is 0, and otherwise equals `100 × estimated_profit / revenue`
with `estimated_profit = revenue − cash_out`, with no sign restriction on the
revenue. -/
theorem profit_margin_null_iff_zero_revenue
    (invs : List InvoiceRow) (cash : List CashRow) (c : String) :
    (profitMarginOf invs cash c = none ↔ revenueOf invs c = 0) ∧
    (revenueOf invs c ≠ 0 →
      profitMarginOf invs cash c =
        some (100 * (revenueOf invs c - cashOutOf cash c) / revenueOf invs c)) := by
  constructor
  · constructor
    · intro h
      by_contra hzero
      simp [profitMarginOf, hzero] at h
    · intro h
      simp [profitMarginOf, h]
  · intro h
    simp only [profitMarginOf, if_pos, ne_eq, h, not_false_iff, estProfitOf]
    congr 1
    field_simp
    ring

/-- Witness for C3 at a concrete table: one invoice of amount −5 on project
"P1" and no cash rows, so revenue is negative and the margin is still
computed. -/
theorem profit_margin_null_iff_zero_revenue_witness :
    profitMarginOf [⟨some "P1", -5, "Draft"⟩] [] "P1" =
      some (100 * (revenueOf [⟨some "P1", -5, "Draft"⟩] "P1" -
        cashOutOf [] "P1") / revenueOf [⟨some "P1", -5, "Draft"⟩] "P1") :=
  (profit_margin_null_iff_zero_revenue [⟨some "P1", -5, "Draft"⟩] [] "P1").2
    (by simp [revenueOf])

/-- C4: under the nonnegativity of amounts that the input forms enforce
(`st.number_input(min_value=0.0)` for invoice and debt/asset amounts), each
company-dashboard ratio is null exactly when its denominator is zero, and the
division is only performed under a strictly positive denominator. -/
theorem ratios_null_iff_zero_denominator
    (invs : List InvoiceRow) (cash : List CashRow) (ds : List DebtRow)
    (hinv : ∀ r ∈ invs, 0 ≤ r.amount) (hds : ∀ r ∈ ds, 0 ≤ r.amount) :
    (debtToAssets ds = none ↔ totalAssets ds = 0) ∧
    (cashCoverage cash ds = none ↔ totalDebts ds = 0) ∧
    (collectionRatio invs = none ↔ totalInvoices invs = 0) := by
  have ha := totalAssets_nonneg ds hds
  have hd := totalDebts_nonneg ds hds
  have hi := totalInvoices_nonneg invs hinv
  refine ⟨?_, ?_, ?_⟩
  · unfold debtToAssets
    split_ifs with h
    · simp only [reduceCtorEq, false_iff]
      exact ne_of_gt h
    · simpa using le_antisymm (not_lt.1 h) ha
  · unfold cashCoverage
    split_ifs with h
    · simp only [reduceCtorEq, false_iff]
      exact ne_of_gt h
    · simpa using le_antisymm (not_lt.1 h) hd
  · unfold collectionRatio
    split_ifs with h
    · simp only [reduceCtorEq, false_iff]
      exact ne_of_gt h.2
    · rw [not_and_or] at h
      rcases h with h | h
      · rw [not_not] at h
        have : invs = [] := List.isEmpty_iff.1 h
        subst this
        simp [totalInvoices]
      · simpa using le_antisymm (not_lt.1 h) hi

/-- Witness for C4: one zero-amount paid invoice, one debt of 3, no cash. -/
theorem ratios_null_iff_zero_denominator_witness :
    (debtToAssets [⟨some "P1", "Debt", 3⟩] = none ↔
      totalAssets [⟨some "P1", "Debt", 3⟩] = 0) ∧
    (cashCoverage [] [⟨some "P1", "Debt", 3⟩] = none ↔
      totalDebts [⟨some "P1", "Debt", 3⟩] = 0) ∧
    (collectionRatio [⟨some "P1", 0, "Paid"⟩] = none ↔
      totalInvoices [⟨some "P1", 0, "Paid"⟩] = 0) :=
  ratios_null_iff_zero_denominator [⟨some "P1", 0, "Paid"⟩] []
    [⟨some "P1", "Debt", 3⟩] (by simp) (by simp)

/-- C5: the negative-net-cash critical alert and the net-cash-below-debts
warning are mutually exclusive; when `net_cash < 0` exactly one critical alert
fires regardless of `total_debts`; and when nothing fires the output is the
single ok status. -/
theorem alerts_exclusive (net td : ℚ) (dta cr : Option ℚ) :
    (¬(Alert.negativeCash ∈ alertsFired net td dta cr ∧
        Alert.belowDebts ∈ alertsFired net td dta cr)) ∧
    (net < 0 →
      ((alertsFired net td dta cr).filter (fun a => isCritical a)).length = 1 ∧
      Alert.belowDebts ∉ alertsFired net td dta cr) ∧
    (alertsFired net td dta cr = [] → alertOutput net td dta cr = [Alert.ok]) := by
  refine ⟨?_, ?_, ?_⟩
  · rintro ⟨h1, h2⟩
    rcases dta with _ | r <;> rcases cr with _ | s <;>
      simp only [alertsFired, List.mem_append] at h1 h2 <;>
      split_ifs at h1 h2 <;> simp_all
  · intro hn
    rcases dta with _ | r <;> rcases cr with _ | s <;>
      simp only [alertsFired, if_pos hn] <;>
      simp [isCritical]
  · intro h
    simp [alertOutput, h]

/-- Witness for C5 at Scenario C of the spec: `net_cash = −100`,
`total_debts = 0`, both ratios null — exactly one critical alert and no
below-debts warning; and the all-quiet instance emits the single ok status. -/
theorem alerts_exclusive_witness :
    (((alertsFired (-100) 0 none none).filter (fun a => isCritical a)).length = 1 ∧
      Alert.belowDebts ∉ alertsFired (-100) 0 none none) ∧
    alertOutput 0 0 none none = [Alert.ok] :=
  ⟨(alerts_exclusive (-100) 0 none none).2.1 (by simp),
   (alerts_exclusive 0 0 none none).2.2 (by simp [alertsFired])⟩

/-- C9: a `debts_fixed` row whose `type` is neither exactly `"Debt"` nor
exactly `"Fixed Asset"` contributes to no debts or assets figure: neither to
the company totals nor to any per-project groupby sum. -/
theorem other_type_contributes_nothing (r : DebtRow) (ds : List DebtRow)
    (h1 : r.dtype ≠ "Debt") (h2 : r.dtype ≠ "Fixed Asset") :
    totalDebts (r :: ds) = totalDebts ds ∧
    totalAssets (r :: ds) = totalAssets ds ∧
    ∀ c, debtsOf (r :: ds) c = debtsOf ds c ∧ assetsOf (r :: ds) c = assetsOf ds c := by
  refine ⟨?_, ?_, fun c => ⟨?_, ?_⟩⟩
  · simp [totalDebts, List.filter_cons, h1]
  · simp [totalAssets, List.filter_cons, h2]
  · simp [debtsOf, List.filter_cons, h1]
  · simp [assetsOf, List.filter_cons, h2]

/-- Witness for C9: a row typed `"debt"` (lowercase) is ignored — the
comparison is exact, hence case-sensitive. -/
theorem other_type_contributes_nothing_witness :
    totalDebts [⟨some "P1", "debt", 5⟩] = totalDebts [] ∧
    totalAssets [⟨some "P1", "debt", 5⟩] = totalAssets [] ∧
    ∀ c, debtsOf [⟨some "P1", "debt", 5⟩] c = debtsOf [] c ∧
      assetsOf [⟨some "P1", "debt", 5⟩] c = assetsOf [] c :=
  other_type_contributes_nothing ⟨some "P1", "debt", 5⟩ []
    (by decide) (by decide)

/-- C6: a code appears in the collected rollup key set exactly when some row
of one of the four tables carries it (non-null); and a code all of whose
invoice rows are absent has revenue 0, likewise debts and assets 0 when no
debts-fixed row carries it — so a code present only in `cash_book` still gets
a summary row, with revenue, debts and assets 0. -/
theorem rollup_covers_union (projs : List ProjectRow) (invs : List InvoiceRow)
    (cash : List CashRow) (ds : List DebtRow) (c : String) :
    (c ∈ collectCodes projs invs cash ds ↔
      (∃ p ∈ projs, p.projectCode = some c) ∨
      (∃ i ∈ invs, i.projectCode = some c) ∨
      (∃ r ∈ cash, r.projectCode = some c) ∨
      (∃ d ∈ ds, d.projectCode = some c)) ∧
    ((∀ i ∈ invs, i.projectCode ≠ some c) → revenueOf invs c = 0) ∧
    ((∀ d ∈ ds, d.projectCode ≠ some c) →
      debtsOf ds c = 0 ∧ assetsOf ds c = 0) := by
  refine ⟨?_, ?_, fun h => ⟨?_, ?_⟩⟩
  · simp only [collectCodes, List.mem_dedup, List.mem_filterMap, List.mem_append,
      List.mem_map, id]
    constructor
    · rintro ⟨a, (((⟨p, hp, rfl⟩ | ⟨i, hi, rfl⟩) | ⟨r, hr, rfl⟩) | ⟨d, hd, rfl⟩), ha⟩
      · exact Or.inl ⟨p, hp, ha⟩
      · exact Or.inr (Or.inl ⟨i, hi, ha⟩)
      · exact Or.inr (Or.inr (Or.inl ⟨r, hr, ha⟩))
      · exact Or.inr (Or.inr (Or.inr ⟨d, hd, ha⟩))
    · rintro (⟨p, hp, hc⟩ | ⟨i, hi, hc⟩ | ⟨r, hr, hc⟩ | ⟨d, hd, hc⟩)
      · exact ⟨some c, Or.inl (Or.inl (Or.inl ⟨p, hp, hc⟩)), rfl⟩
      · exact ⟨some c, Or.inl (Or.inl (Or.inr ⟨i, hi, hc⟩)), rfl⟩
      · exact ⟨some c, Or.inl (Or.inr ⟨r, hr, hc⟩), rfl⟩
      · exact ⟨some c, Or.inr ⟨d, hd, hc⟩, rfl⟩
  · intro h
    unfold revenueOf
    have hnil : invs.filter (fun r => r.projectCode = some c) = [] := by
      rw [List.filter_eq_nil_iff]
      intro a ha
      simpa using h a ha
    simp [hnil]
  · unfold debtsOf
    have hnil : ds.filter
        (fun r => decide (r.dtype = "Debt") && decide (r.projectCode = some c)) = [] := by
      rw [List.filter_eq_nil_iff]
      intro a ha
      simp [h a ha]
    simp [hnil]
  · unfold assetsOf
    have hnil : ds.filter
        (fun r => decide (r.dtype = "Fixed Asset") && decide (r.projectCode = some c)) = [] := by
      rw [List.filter_eq_nil_iff]
      intro a ha
      simp [h a ha]
    simp [hnil]

/-- Witness for C6, Scenario D of the spec: code `"C1"` present only in the
cash book still enters the key set, with revenue, debts and assets 0. -/
theorem rollup_covers_union_witness :
    "C1" ∈ collectCodes [] [] [⟨some "C1", 10, 0⟩] [] ∧
    revenueOf [] "C1" = 0 ∧ debtsOf [] "C1" = 0 ∧ assetsOf [] "C1" = 0 := by
  have T := rollup_covers_union [] [] [⟨some "C1", 10, 0⟩] [] "C1"
  exact ⟨T.1.2 (Or.inr (Or.inr (Or.inl ⟨⟨some "C1", 10, 0⟩, by simp⟩))),
    T.2.1 (by simp), (T.2.2 (by simp)).1, (T.2.2 (by simp)).2⟩

/-- Counterexample for C2: an invoice with a null project code is dropped from
the owners-dashboard key set, so its amount is absent from the
owners-dashboard total revenue, which sums the per-project summary column:
the total is 0 while the raw invoice amounts sum to 100. -/
theorem null_code_counted_in_totals_cex :
    odTotalRevenue [] [⟨none, 100, "Draft"⟩] [] [] = 0 ∧
    totalInvoices [⟨none, 100, "Draft"⟩] = 100 ∧
    odTotalRevenue [] [⟨none, 100, "Draft"⟩] [] [] ≠
      totalInvoices [⟨none, 100, "Draft"⟩] := by
  refine ⟨?_, ?_, ?_⟩ <;>
    simp [odTotalRevenue, collectCodes, revenueOf, totalInvoices]

/-- C2 amended: rows with a null project code are excluded from every
per-project summary column and contribute nothing to the owners-dashboard
CompanySummary additive totals either, since those totals are column-wise sums
of the per-project summary rows. -/
theorem null_code_rows_excluded (projs : List ProjectRow) (invs : List InvoiceRow)
    (cash : List CashRow) (ds : List DebtRow) :
    (∀ i : InvoiceRow, i.projectCode = none →
      collectCodes projs (i :: invs) cash ds = collectCodes projs invs cash ds ∧
      (∀ c, revenueOf (i :: invs) c = revenueOf invs c) ∧
      odTotalRevenue projs (i :: invs) cash ds = odTotalRevenue projs invs cash ds) ∧
    (∀ r : CashRow, r.projectCode = none →
      collectCodes projs invs (r :: cash) ds = collectCodes projs invs cash ds ∧
      (∀ c, netCashOf (r :: cash) c = netCashOf cash c) ∧
      odTotalNetCash projs invs (r :: cash) ds = odTotalNetCash projs invs cash ds) ∧
    (∀ d : DebtRow, d.projectCode = none →
      collectCodes projs invs cash (d :: ds) = collectCodes projs invs cash ds ∧
      odTotalDebts projs invs cash (d :: ds) = odTotalDebts projs invs cash ds ∧
      odTotalAssets projs invs cash (d :: ds) = odTotalAssets projs invs cash ds) := by
  refine ⟨fun i hi => ?_, fun r hr => ?_, fun d hd => ?_⟩
  · have hcodes : collectCodes projs (i :: invs) cash ds = collectCodes projs invs cash ds := by
      simp [collectCodes, hi]
    have hrev : ∀ c, revenueOf (i :: invs) c = revenueOf invs c := by
      intro c
      simp [revenueOf, List.filter_cons, hi]
    refine ⟨hcodes, hrev, ?_⟩
    unfold odTotalRevenue
    rw [hcodes, List.map_congr_left (fun a _ => hrev a)]
  · have hcodes : collectCodes projs invs (r :: cash) ds = collectCodes projs invs cash ds := by
      simp [collectCodes, hr]
    have hnet : ∀ c, netCashOf (r :: cash) c = netCashOf cash c := by
      intro c
      simp [netCashOf, cashInOf, cashOutOf, List.filter_cons, hr]
    refine ⟨hcodes, hnet, ?_⟩
    unfold odTotalNetCash
    rw [hcodes, List.map_congr_left (fun a _ => hnet a)]
  · have hcodes : collectCodes projs invs cash (d :: ds) = collectCodes projs invs cash ds := by
      simp [collectCodes, hd]
    have hdebts : ∀ c, debtsOf (d :: ds) c = debtsOf ds c := by
      intro c
      simp [debtsOf, List.filter_cons, hd]
    have hassets : ∀ c, assetsOf (d :: ds) c = assetsOf ds c := by
      intro c
      simp [assetsOf, List.filter_cons, hd]
    refine ⟨hcodes, ?_, ?_⟩
    · unfold odTotalDebts
      rw [hcodes, List.map_congr_left (fun a _ => hdebts a)]
    · unfold odTotalAssets
      rw [hcodes, List.map_congr_left (fun a _ => hassets a)]

/-- Witness for C2 amended: the null-code invoice of amount 100 leaves the key
set and the owners-dashboard total revenue unchanged on a concrete table. -/
theorem null_code_rows_excluded_witness :
    collectCodes [] [⟨none, 100, "Draft"⟩] [] [] = collectCodes [] [] [] [] ∧
    odTotalRevenue [] [⟨none, 100, "Draft"⟩] [] [] = odTotalRevenue [] [] [] [] :=
  ⟨((null_code_rows_excluded [] [] [] []).1 ⟨none, 100, "Draft"⟩ rfl).1,
   ((null_code_rows_excluded [] [] [] []).1 ⟨none, 100, "Draft"⟩ rfl).2.2⟩

/-- The translated query contains no occurrence of the universal placeholder:
every `?` was rewritten. -/
theorem replaceQmark_no_qmark (sql : List Char) : '?' ∉ replaceQmark sql := by
  induction sql with
  | nil => simp [replaceQmark]
  | cons ch rest ih =>
    by_cases hq : ch = '?'
    · subst hq
      intro hmem
      simp only [replaceQmark, if_pos] at hmem
      rcases List.mem_cons.1 hmem with h1 | h1
      · exact absurd h1 (by decide)
      rcases List.mem_cons.1 h1 with h2 | h2
      · exact absurd h2 (by decide)
      · exact ih h2
    · intro hmem
      simp only [replaceQmark, if_neg hq] at hmem
      rcases List.mem_cons.1 hmem with h1 | h1
      · exact hq h1.symm
      · exact ih h1

/-- Unfolding equation for `bindPg` on a nonempty query. -/
theorem bindPg_cons {α : Type} (ch : Char) (rest : List Char) (ps : List α) :
    bindPg (ch :: rest) ps =
      if ch = '%' then
        (match rest, ps with
         | 's' :: rest2, p :: tail => (bindPg rest2 tail).map (SqlItem.param p :: ·)
         | _, _ => none)
      else (bindPg rest ps).map (SqlItem.lit ch :: ·) := by
  rw [bindPg.eq_def]

/-- Binding the translated query on the psycopg2 side agrees with binding the
original template on the sqlite side, for templates free of the `%` escape. -/
theorem bindPg_replaceQmark {α : Type} :
    ∀ (sql : List Char) (ps : List α), '%' ∉ sql →
      bindPg (replaceQmark sql) ps = bindSqlite sql ps := by
  intro sql
  induction sql with
  | nil =>
    intro ps _
    rfl
  | cons ch rest ih =>
    intro ps hnp
    have hch : ch ≠ '%' := fun h => hnp (h ▸ List.mem_cons_self ch rest)
    have hrest : '%' ∉ rest := fun h => hnp (List.mem_cons_of_mem ch h)
    by_cases hq : ch = '?'
    · subst hq
      cases ps with
      | nil => simp [replaceQmark, bindPg, bindSqlite]
      | cons p tail =>
        simp [replaceQmark, bindPg, bindSqlite, ih tail hrest]
    · have h1 : replaceQmark (ch :: rest) = ch :: replaceQmark rest := by
        simp [replaceQmark, hq]
      rw [h1, bindPg_cons, if_neg hch, ih ps hrest]
      simp [bindSqlite, hq]

/-- C7: with parameters supplied, `execute` dispatches the template with every
`?` rewritten to `%s`, no `?` survives the translation, and (for templates
free of the `%` escape character, as all queries in the repository are)
positional binding of the translated query by the networked driver agrees
item-for-item with positional binding of the original template by the embedded
driver — the caller sees equivalent execution on either backend. -/
theorem neon_placeholder_translation {α : Type} (sql : List Char) (ps : List α)
    (hnp : '%' ∉ sql) :
    (neonExecute sql (some ps)).1 = replaceQmark sql ∧
    '?' ∉ (neonExecute sql (some ps)).1 ∧
    bindPg (neonExecute sql (some ps)).1 ps = bindSqlite sql ps :=
  ⟨rfl, replaceQmark_no_qmark sql, bindPg_replaceQmark sql ps hnp⟩

/-- Witness for C7 on a query of the repository
(`SELECT * FROM invoices WHERE project_code = ?`) with one parameter. -/
theorem neon_placeholder_translation_witness :
    (neonExecute "SELECT * FROM invoices WHERE project_code = ?".toList
        (some ["P1"])).1 =
      replaceQmark "SELECT * FROM invoices WHERE project_code = ?".toList ∧
    '?' ∉ (neonExecute "SELECT * FROM invoices WHERE project_code = ?".toList
        (some ["P1"])).1 ∧
    bindPg (neonExecute "SELECT * FROM invoices WHERE project_code = ?".toList
        (some ["P1"])).1 ["P1"] =
      bindSqlite "SELECT * FROM invoices WHERE project_code = ?".toList ["P1"] :=
  neon_placeholder_translation
    "SELECT * FROM invoices WHERE project_code = ?".toList ["P1"] (by decide)

/-- C8: under the nonnegative inputs the form enforces
(`st.number_input(min_value=0.0)`), the cash save leaves the table unchanged
when both debit and credit are positive and when both are zero, and preserves
the invariant that every stored row has positive debit XOR positive credit. -/
theorem cash_save_rejects_invalid (table : List CashRow) (pc : String) (d c : ℚ)
    (hd : 0 ≤ d) (hc : 0 ≤ c) :
    ((0 < d ∧ 0 < c) → saveCashEntry table pc d c = table) ∧
    ((d = 0 ∧ c = 0) → saveCashEntry table pc d c = table) ∧
    (cashXorInv table → cashXorInv (saveCashEntry table pc d c)) := by
  refine ⟨fun h => by simp [saveCashEntry, h], fun h => ?_, fun hinv => ?_⟩
  · obtain ⟨hd0, hc0⟩ := h
    subst hd0
    subst hc0
    simp [saveCashEntry]
  · unfold saveCashEntry
    split_ifs with h1 h2
    · exact hinv
    · exact hinv
    · intro e he
      rcases List.mem_append.1 he with he | he
      · exact hinv e he
      · have he2 : e = ⟨normalizeOpt pc, d, c⟩ := by simpa using he
        subst he2
        by_cases hdp : 0 < d
        · exact Or.inl ⟨hdp, fun hcp => h1 ⟨hdp, hcp⟩⟩
        · have hd0 : d = 0 := le_antisymm (not_lt.1 hdp) hd
          have hc0 : c ≠ 0 := fun h0 => h2 ⟨hd0, h0⟩
          exact Or.inr ⟨hdp, lt_of_le_of_ne hc (Ne.symm hc0)⟩

/-- Witness for C8: the both-positive entry is rejected on the empty table,
and saving a valid debit-only entry preserves the invariant. -/
theorem cash_save_rejects_invalid_witness :
    saveCashEntry [] "P1" 5 3 = [] ∧
    cashXorInv (saveCashEntry [] "P1" 5 0) :=
  ⟨(cash_save_rejects_invalid [] "P1" 5 3 (by simp) (by simp)).1
      ⟨by simp, by simp⟩,
   (cash_save_rejects_invalid [] "P1" 5 0 (by simp) (by simp)).2.2
      (fun e he => absurd he (List.not_mem_nil e))⟩

/-- C10: an optional text field that is empty or whitespace-only normalizes to
null (`s.strip() or None`), and consequently a cash, invoice, or debt/asset
row saved with such a project code adds no project code to the rollup key set:
it lands in the no-project bucket rather than creating a blank-string code. -/
theorem blank_optional_fields_stored_null (s : String)
    (hblank : ∀ ch ∈ s.data, ch.isWhitespace) :
    normalizeOpt s = none ∧
    (∀ (projs : List ProjectRow) (invs : List InvoiceRow) (cash : List CashRow)
        (ds : List DebtRow) (d c : ℚ),
      collectCodes projs invs (saveCashEntry cash s d c) ds =
        collectCodes projs invs cash ds) ∧
    (∀ (projs : List ProjectRow) (invs : List InvoiceRow) (cash : List CashRow)
        (ds : List DebtRow) (amount : ℚ) (status : String),
      collectCodes projs (saveInvoice invs s amount status) cash ds =
        collectCodes projs invs cash ds) ∧
    (∀ (projs : List ProjectRow) (invs : List InvoiceRow) (cash : List CashRow)
        (ds : List DebtRow) (dtype : String) (amount : ℚ),
      collectCodes projs invs cash (saveDebtFixed ds dtype s amount) =
        collectCodes projs invs cash ds) := by
  have hdrop : s.data.dropWhile Char.isWhitespace = [] := by
    rw [List.dropWhile_eq_nil_iff]
    exact hblank
  have hstrip : pyStrip s = "" := by
    simp [pyStrip, pyStripList, hdrop]
  have hnorm : normalizeOpt s = none := by
    simp [normalizeOpt, hstrip]
  refine ⟨hnorm, fun projs invs cash ds d c => ?_, fun projs invs cash ds a st => ?_,
    fun projs invs cash ds ty a => ?_⟩
  · unfold saveCashEntry
    split_ifs
    · rfl
    · rfl
    · simp [collectCodes, hnorm]
  · simp [saveInvoice, collectCodes, hnorm]
  · simp [saveDebtFixed, collectCodes, hnorm]

/-- Witness for C10 with the whitespace-only project code `"   "`. -/
theorem blank_optional_fields_stored_null_witness :
    normalizeOpt "   " = none ∧
    collectCodes [] [] (saveCashEntry [] "   " 5 0) [] = collectCodes [] [] [] [] :=
  ⟨(blank_optional_fields_stored_null "   " (by decide)).1,
   (blank_optional_fields_stored_null "   " (by decide)).2.1 [] [] [] [] 5 0⟩

/-- Counterexample for C1: the caller-visible result of a failed read is the
empty table, identical to the result of a successful read of a genuinely
empty table — the failure is converted into an empty table. -/
theorem failed_read_returns_empty_cex :
    (dfFromQuery (Except.error "database is locked") : List InvoiceRow × Option String).1
      = [] ∧
    (dfFromQuery (Except.error "database is locked")).1 =
      (dfFromQuery (Except.ok ([] : List InvoiceRow))).1 :=
  ⟨rfl, rfl⟩

/-- C1 amended: on a failed query `df_from_query` reports the error to the UI
(`st.error`) but swallows the exception and hands the caller an empty table;
a successful read hands back the table itself with no error reported.  The
caller cannot distinguish a failed read from an empty one by the return
value. -/
theorem failed_read_reports_and_returns_empty {α : Type} (e : String) (t : List α) :
    dfFromQuery (Except.error e : Except String (List α)) = ([], some e) ∧
    dfFromQuery (Except.ok t) = (t, none) :=
  ⟨rfl, rfl⟩

end NpsAcc
